import Mathlib

/-!
Verification of the Algo SDK request execution engine
(`src/sdk/python/algo_sdk/client.py` and `exceptions.py`).

The embedding models:
* the per-client configuration and default headers (`AlgoSDK.__init__`,
  client.py lines 45-64);
* the retry loop of the mounted `urllib3 Retry` adapter
  (`Retry(total=max_retries, backoff_factor=1,
  status_forcelist=[429, 500, 502, 503, 504], method_whitelist=[...all...])`,
  client.py lines 51-59) — the whitelist contains every method the SDK uses,
  so retry eligibility depends only on the outcome of each attempt;
* `AlgoSDK._request`s handling of the terminal outcome (client.py
  lines 76-103), including the `except requests.exceptions.RequestException`
  handler that also catches the `JSONDecodeError` raised by `response.json()`
  on an empty or non-JSON body (a `RequestException` subclass for the
  `requests>=2.31.0` required by setup.py);
* the request construction of the resource wrappers (`UsersAPI`,
  `ProjectsAPI`, `WebhooksAPI`), whose optional arguments are included
  under Python truthiness tests (`if name:`, `if project_id:`).
-/

/-- Structured (JSON) values, as produced by `response.json()`. -/
inductive Json where
  | jnull : Json
  | jbool : Bool → Json
  | jnum : Int → Json
  | jstr : String → Json
  | jarr : List Json → Json
  | jobj : List (String × Json) → Json

/-- The raw body of an HTTP response. `empty` is a body with no content
(`response.content` falsy); `json j` is a non-empty body whose
`response.json()` decoding succeeds with `j`; `invalid s` is a non-empty
body on which `response.json()` raises `JSONDecodeError`. -/
inductive Body where
  | empty : Body
  | json : Json → Body
  | invalid : String → Body

/-- Result of `response.json()`: `some` on a decodable body, `none` when the
call would raise. -/
def Body.decode : Body → Option Json
  | .empty => none
  | .json j => some j
  | .invalid _ => none

/-- Truthiness of `response.content`. -/
def Body.nonEmpty : Body → Bool
  | .empty => false
  | _ => true

/-- An HTTP response as seen by the client: status code and raw body. -/
structure HttpResponse where
  status : Nat
  body : Body

/-- Outcome of one wire-level attempt: either no response was received
(connection or timeout failure) or a response arrived. -/
inductive AttemptOutcome where
  | failure : AttemptOutcome
  | response : HttpResponse → AttemptOutcome

/-- Outcome of `self.session.request(...)` as a whole: either a terminal
response is delivered to `_request`, or a `requests.exceptions.RequestException`
(`ConnectionError`, `Timeout`, or the `RetryError` wrapping `MaxRetryError`
raised when the `Retry` budget is exhausted) escapes the session. -/
inductive SessionResult where
  | ok : HttpResponse → SessionResult
  | exc : SessionResult

/-- The `status_forcelist` of the `Retry` strategy (client.py line 54). -/
def status_forcelist : List Nat := [429, 500, 502, 503, 504]

/-- Whether the `Retry` adapter treats the outcome of an attempt as
retryable: any attempt with no response (connection/timeout), or a response
whose status is in the forcelist. The configured `method_whitelist`
contains every method the SDK issues, so the method never blocks a retry. -/
def attemptRetried : AttemptOutcome → Bool
  | .failure => true
  | .response r => status_forcelist.contains r.status

/-- The retry loop of `urllib3.util.retry.Retry` with only `total` set
(client.py lines 51-58). `server` maps each 1-based attempt index to its
wire outcome. `remaining` is the remaining `total` budget; a retryable
outcome with no budget left raises `MaxRetryError` (surfaced as a
`RequestException`), modelled as `.exc`. Returns the session outcome
together with the number of the attempt on which the call terminated. -/
def runSession (server : Nat → AttemptOutcome) : Nat → Nat → SessionResult × Nat
  | remaining, attempt =>
    match server attempt with
    | .failure =>
      match remaining with
      | 0 => (.exc, attempt)
      | r + 1 => runSession server r (attempt + 1)
    | .response resp =>
      if status_forcelist.contains resp.status then
        match remaining with
        | 0 => (.exc, attempt)
        | r + 1 => runSession server r (attempt + 1)
      else
        (.ok resp, attempt)

/-- The exception classes of `exceptions.py`: the base `AlgoAPIError` and its
four subclasses. -/
inductive ExcClass where
  | apiError : ExcClass
  | authError : ExcClass
  | notFoundError : ExcClass
  | validationError : ExcClass
  | rateLimitError : ExcClass
deriving DecidableEq

/-- The `AlgoAPIError` value raised by `_request` (exceptions.py lines 4-11):
which exception class was raised, its message, and the optional status code
and response body. `status_code` and `response` default to `None` when the
constructor is called with the message alone. -/
structure AlgoAPIError where
  kind : ExcClass
  message : String
  status_code : Option Nat
  response : Option Json

/-- Observable result of one `_request` call: the returned decoded body
(`None` for an empty body) or the raised `AlgoAPIError`. -/
inductive PyResult where
  | success : Option Json → PyResult
  | error : AlgoAPIError → PyResult

/-- The error produced at client.py line 103: `AlgoAPIError(f"Request failed:
{e}")`, constructed with the message only, so `status_code` and `response`
are both `None`. The interpolated text of the underlying exception is not
tracked. -/
def requestFailedError : AlgoAPIError :=
  { kind := .apiError, message := "Request failed", status_code := none,
    response := none }

/-- One of the four specific `raise` statements at client.py lines 85-92:
`response.json()` is evaluated first, and if it raises (empty or non-JSON
body) the `JSONDecodeError` is caught by the `except RequestException`
handler at line 102, yielding the generic no-status error instead. -/
def raiseWithJson (cls : ExcClass) (msg : String) (resp : HttpResponse) :
    PyResult :=
  match resp.body.decode with
  | some j =>
    .error { kind := cls, message := msg, status_code := some resp.status,
             response := some j }
  | none => .error requestFailedError

/-- Handling of a response delivered to `_request` (client.py lines 85-100):
the status dispatch of the four specific errors, the generic `>= 400` branch
(which guards `response.json()` behind `response.content`), and the success
return `response.json() if response.content else None`. A `json()` raise in
the two guarded branches is likewise caught at line 102. -/
def classifyResponse (resp : HttpResponse) : PyResult :=
  if resp.status = 401 then
    raiseWithJson .authError "Authentication failed" resp
  else if resp.status = 404 then
    raiseWithJson .notFoundError "Resource not found" resp
  else if resp.status = 400 then
    raiseWithJson .validationError "Validation failed" resp
  else if resp.status = 429 then
    raiseWithJson .rateLimitError "Rate limit exceeded" resp
  else if 400 ≤ resp.status then
    match resp.body with
    | .empty =>
      .error { kind := .apiError,
               message := "API error: " ++ toString resp.status,
               status_code := some resp.status, response := none }
    | .json j =>
      .error { kind := .apiError,
               message := "API error: " ++ toString resp.status,
               status_code := some resp.status, response := some j }
    | .invalid _ => .error requestFailedError
  else
    match resp.body with
    | .empty => .success none
    | .json j => .success (some j)
    | .invalid _ => .error requestFailedError

/-- `AlgoSDK._request` (client.py lines 76-103): run the session with the
configured retry budget starting at attempt 1; an escaping
`RequestException` becomes the generic error of line 103, a delivered
response is classified. Returns the observable result paired with the total
number of wire attempts made. -/
def execute (max_retries : Nat) (server : Nat → AttemptOutcome) :
    PyResult × Nat :=
  match runSession server max_retries 1 with
  | (.exc, n) => (.error requestFailedError, n)
  | (.ok resp, n) => (classifyResponse resp, n)

/-- `urllib3.util.retry.Retry.BACKOFF_MAX`. -/
def BACKOFF_MAX : Nat := 120

/-- `Retry.get_backoff_time` of urllib3 1.26: with `consecutive` prior
errored attempts, the delay is `0` for the first retry and
`backoff_factor * 2 ^ (consecutive - 1)` capped at `BACKOFF_MAX` after. The
client configures `backoff_factor=1` (client.py line 53). -/
def get_backoff_time (backoff_factor consecutive : Nat) : Nat :=
  if consecutive ≤ 1 then 0
  else min BACKOFF_MAX (backoff_factor * 2 ^ (consecutive - 1))

/-- The per-client configuration captured by `AlgoSDK.__init__`
(client.py lines 29-47). -/
structure ClientConfig where
  api_key : Option String
  base_url : String
  timeout : Nat
  max_retries : Nat

/-- The headers stored on the session at construction (client.py lines
61-64): `Content-Type` always, and `Authorization: Bearer <key>` exactly
when `api_key` is truthy (present and non-empty, per Python `if api_key:`). -/
def sessionHeaders (api_key : Option String) : List (String × String) :=
  [("Content-Type", "application/json")] ++
    (match api_key with
     | some k => if k = "" then [] else [("Authorization", "Bearer " ++ k)]
     | none => [])

/-- The headers attached to the outgoing request of a given attempt:
`requests.Session` merges the stored session headers into every request, so
they are a function of the construction-time configuration only, not of the
attempt or call. -/
def requestHeaders (cfg : ClientConfig) (attempt : Nat) :
    List (String × String) :=
  sessionHeaders cfg.api_key

/-- Values appearing in the request bodies and query-parameter dicts built
by the resource wrappers. -/
inductive JVal where
  | s : String → JVal
  | i : Int → JVal
  | b : Bool → JVal
  | strList : List String → JVal
deriving DecidableEq

/-- The outgoing request a resource operation hands to `_request`: method,
path, query parameters (`params=`) and body (`json=`), the two dicts as
association lists in insertion order. -/
structure RequestSpec where
  method : String
  path : String
  query : List (String × JVal)
  body : List (String × JVal)
deriving DecidableEq

/-- Python truthiness of an optional string argument (`if name:`). -/
def strOptFields (key : String) : Option String → List (String × JVal)
  | some v => if v = "" then [] else [(key, JVal.s v)]
  | none => []

/-- Python truthiness of an optional integer argument (`if project_id:`). -/
def intOptFields (key : String) : Option Int → List (String × JVal)
  | some v => if v = 0 then [] else [(key, JVal.i v)]
  | none => []

/-- `UsersAPI.create` (client.py lines 112-117): body has the three required
fields, plus `name` when truthy. -/
def UsersAPI.create_spec (email username password : String)
    (name : Option String) : RequestSpec :=
  { method := "POST", path := "/users", query := [],
    body := [("email", JVal.s email), ("username", JVal.s username),
             ("password", JVal.s password)] ++ strOptFields "name" name }

/-- `UsersAPI.list` (client.py lines 134-139): query has `page` and `limit`,
plus `search` when truthy. -/
def UsersAPI.list_spec (page limit : Int) (search : Option String) :
    RequestSpec :=
  { method := "GET", path := "/users",
    query := [("page", JVal.i page), ("limit", JVal.i limit)] ++
      strOptFields "search" search,
    body := [] }

/-- `ProjectsAPI.list` (client.py lines 166-171). -/
def ProjectsAPI.list_spec (page limit : Int) (search : Option String) :
    RequestSpec :=
  { method := "GET", path := "/projects",
    query := [("page", JVal.i page), ("limit", JVal.i limit)] ++
      strOptFields "search" search,
    body := [] }

/-- `WebhooksAPI.create` (client.py lines 246-253): body has `url` and
`events`, plus `project_id` and `secret` when truthy. -/
def WebhooksAPI.create_spec (url : String) (events : List String)
    (project_id : Option Int) (secret : Option String) : RequestSpec :=
  { method := "POST", path := "/webhooks", query := [],
    body := [("url", JVal.s url), ("events", JVal.strList events)] ++
      intOptFields "project_id" project_id ++ strOptFields "secret" secret }

/-- `WebhooksAPI.list` (client.py lines 261-266): query has `page` and
`limit`, plus `project_id` when truthy. -/
def WebhooksAPI.list_spec (page limit : Int) (project_id : Option Int) :
    RequestSpec :=
  { method := "GET", path := "/webhooks",
    query := [("page", JVal.i page), ("limit", JVal.i limit)] ++
      intOptFields "project_id" project_id,
    body := [] }

/-- The error-kind precedence table of the specification (section 4.2),
restricted to the rows where a status was received, mapped onto the
exception classes that model the kinds (`AuthenticationFailed` is
`AlgoAuthError`, `GenericApiError` is the base `AlgoAPIError`, and so on).
The no-status row (`TransportFailure`) is the base `AlgoAPIError` with no
status code, handled separately. -/
def specErrorKind (status : Nat) : ExcClass :=
  if status = 401 then .authError
  else if status = 404 then .notFoundError
  else if status = 400 then .validationError
  else if status = 429 then .rateLimitError
  else .apiError

lemma mem_of_retried (resp : HttpResponse)
    (h : attemptRetried (.response resp) = true) :
    resp.status ∈ status_forcelist := by
  simpa [attemptRetried] using h

lemma runSession_retry_step (server : Nat → AttemptOutcome) (r a : Nat)
    (h : attemptRetried (server a) = true) :
    runSession server (r + 1) a = runSession server r (a + 1) := by
  rcases hs : server a with _ | resp
  · simp [runSession, hs]
  · have hm : resp.status ∈ status_forcelist := by
      apply mem_of_retried; rw [← hs]; exact h
    simp [runSession, hs, hm]

lemma runSession_exhaust (server : Nat → AttemptOutcome) (a : Nat)
    (h : attemptRetried (server a) = true) :
    runSession server 0 a = (.exc, a) := by
  rcases hs : server a with _ | resp
  · simp [runSession, hs]
  · have hm : resp.status ∈ status_forcelist := by
      apply mem_of_retried; rw [← hs]; exact h
    simp [runSession, hs, hm]

lemma runSession_terminal (server : Nat → AttemptOutcome) (r a : Nat)
    (resp : HttpResponse) (hs : server a = .response resp)
    (h : resp.status ∉ status_forcelist) :
    runSession server r a = (.ok resp, a) := by
  cases r <;> simp [runSession, hs, h]

lemma runSession_skip (server : Nat → AttemptOutcome) (k : Nat) :
    ∀ r a : Nat, k ≤ r →
      (∀ i, i < k → attemptRetried (server (a + i)) = true) →
      runSession server r a = runSession server (r - k) (a + k) := by
  induction k with
  | zero => intro r a _ _; simp
  | succ k ih =>
    intro r a hk hall
    rcases r with _ | r
    · omega
    · have h0 : attemptRetried (server a) = true := by
        simpa using hall 0 (Nat.succ_pos k)
      rw [runSession_retry_step server r a h0]
      have := ih r (a + 1) (by omega) (fun i hi => by
        have := hall (i + 1) (by omega)
        simpa [Nat.add_assoc, Nat.add_comm 1 i] using this)
      rw [this]
      congr 1 <;> omega

lemma runSession_all_retry (server : Nat → AttemptOutcome)
    (h : ∀ i, attemptRetried (server i) = true) :
    ∀ r a : Nat, runSession server r a = (.exc, a + r) := by
  intro r
  induction r with
  | zero => intro a; simpa using runSession_exhaust server a (h a)
  | succ r ih =>
    intro a
    rw [runSession_retry_step server r a (h a), ih (a + 1)]
    congr 1
    omega

lemma runSession_attempts_le (server : Nat → AttemptOutcome) :
    ∀ r a : Nat, (runSession server r a).2 ≤ a + r := by
  intro r
  induction r with
  | zero =>
    intro a
    rcases hs : server a with _ | resp
    · simp [runSession, hs]
    · by_cases h : resp.status ∈ status_forcelist <;>
        simp [runSession, hs, h]
  | succ r ih =>
    intro a
    rcases hs : server a with _ | resp
    · have := ih (a + 1)
      simp only [runSession, hs]
      omega
    · by_cases h : resp.status ∈ status_forcelist
      · have := ih (a + 1)
        simp only [runSession, hs]
        rw [if_pos (by simpa using h)]
        omega
      · simp [runSession, hs, h]

lemma not_in_forcelist (status : Nat) (h : status < 429) :
    status ∉ status_forcelist := by
  simp only [status_forcelist, List.mem_cons, List.not_mem_nil, or_false]
  omega

/-- C1 (amended): a call whose every attempt receives no response yields the
base `AlgoAPIError` with no status and no body (the transport-failure kind);
and a received response with status >= 400 whose body is JSON-decodable is
classified by the precedence table of the spec, the resulting error carrying
the original status code and the decoded body. (As stated the claim also
covers undecodable bodies, where the code instead produces the generic
no-status error; see the counterexample.) -/
theorem C1_error_classification :
    (∀ max_retries server, (∀ i, server i = AttemptOutcome.failure) →
      (execute max_retries server).1 =
        .error { kind := .apiError, message := "Request failed",
                 status_code := none, response := none }) ∧
    (∀ status j, 400 ≤ status →
      ∃ m, classifyResponse ⟨status, .json j⟩ =
        .error { kind := specErrorKind status, message := m,
                 status_code := some status, response := some j }) := by
  constructor
  · intro mr server h
    have hall := runSession_all_retry server
      (fun i => by simp [attemptRetried, h i]) mr 1
    unfold execute
    rw [hall]
    rfl
  · intro status j h
    by_cases h401 : status = 401
    · subst h401; exact ⟨"Authentication failed", rfl⟩
    · by_cases h404 : status = 404
      · subst h404; exact ⟨"Resource not found", rfl⟩
      · by_cases h400 : status = 400
        · subst h400; exact ⟨"Validation failed", rfl⟩
        · by_cases h429 : status = 429
          · subst h429; exact ⟨"Rate limit exceeded", rfl⟩
          · refine ⟨"API error: " ++ toString status, ?_⟩
            simp [classifyResponse, specErrorKind, h401, h404, h400, h429, h]

/-- Witness for C1 at transport failure and at a decodable 403. -/
theorem C1_error_classification_witness :
    (execute 3 (fun _ => AttemptOutcome.failure)).1 =
      .error { kind := .apiError, message := "Request failed",
               status_code := none, response := none } ∧
    ∃ m, classifyResponse ⟨403, .json (.jobj [])⟩ =
      .error { kind := specErrorKind 403, message := m,
               status_code := some 403, response := some (.jobj []) } :=
  ⟨C1_error_classification.1 3 (fun _ => AttemptOutcome.failure) (fun _ => rfl),
   C1_error_classification.2 403 (.jobj []) (by omega)⟩

/-- Counterexample to C1 as stated: a 401 response with an empty body makes
the unconditional `response.json()` at client.py line 86 raise, and the
result is the base `AlgoAPIError` with neither the table's kind
(`AuthenticationFailed`) nor the original status code. -/
theorem C1_counterexample :
    classifyResponse ⟨401, Body.empty⟩ = .error requestFailedError ∧
    requestFailedError.kind ≠ specErrorKind 401 ∧
    requestFailedError.status_code ≠ some 401 := by
  refine ⟨rfl, by decide, by decide⟩

/-- C2 (confirmed): status 500 on attempts 1..k with k below `max_retries`
and a decodable 200 on attempt k+1 make `execute` return the decoded value
after exactly k+1 attempts. -/
theorem C2_retry_then_success (max_retries k : Nat) (hk : k < max_retries)
    (server : Nat → AttemptOutcome) (j : Json)
    (h500 : ∀ i, 1 ≤ i → i ≤ k → ∃ b, server i = .response ⟨500, b⟩)
    (hok : server (k + 1) = .response ⟨200, .json j⟩) :
    execute max_retries server = (.success (some j), k + 1) := by
  have hall : ∀ i, i < k → attemptRetried (server (1 + i)) = true := by
    intro i hi
    obtain ⟨b, hb⟩ := h500 (1 + i) (by omega) (by omega)
    simp [attemptRetried, hb, status_forcelist]
  have hskip := runSession_skip server k max_retries 1 (by omega) hall
  have hok1 : server (1 + k) = .response ⟨200, .json j⟩ := by
    rw [Nat.add_comm]; exact hok
  have hterm := runSession_terminal server (max_retries - k) (1 + k)
    ⟨200, .json j⟩ hok1 (not_in_forcelist 200 (by omega))
  unfold execute
  rw [hskip, hterm, Nat.add_comm 1 k]
  rfl

/-- Witness for C2: one 500 then a 200 with body `null`, two attempts. -/
theorem C2_retry_then_success_witness :
    execute 3 (fun i => if i = 1 then .response ⟨500, .empty⟩
                        else .response ⟨200, .json .jnull⟩) =
      (.success (some .jnull), 2) :=
  C2_retry_then_success 3 1 (by omega) _ .jnull
    (fun i h1 h2 => ⟨Body.empty, by
      have hi : i = 1 := by omega
      subst hi; rfl⟩)
    rfl

/-- C3 (amended): when every attempt receives status 503, the `Retry`
budget is exhausted inside the session, `MaxRetryError` surfaces as a
`RequestException`, and `execute` returns the base `AlgoAPIError` with NO
status code and no body after exactly `max_retries + 1` attempts — the 503
never reaches the classification branches. -/
theorem C3_always_503_exhausts (max_retries : Nat)
    (server : Nat → AttemptOutcome) (bodies : Nat → Body)
    (h : ∀ i, server i = .response ⟨503, bodies i⟩) :
    execute max_retries server = (.error requestFailedError, max_retries + 1) := by
  have hall := runSession_all_retry server
    (fun i => by simp [attemptRetried, h i, status_forcelist]) max_retries 1
  unfold execute
  rw [hall, Nat.add_comm 1 max_retries]

/-- Witness for C3 at `max_retries = 3`. -/
theorem C3_always_503_exhausts_witness :
    execute 3 (fun _ => .response ⟨503, Body.empty⟩) =
      (.error requestFailedError, 4) :=
  C3_always_503_exhausts 3 _ (fun _ => Body.empty) (fun _ => rfl)

/-- Counterexample to C3 as stated: with `max_retries = 3` and constant 503,
the returned error carries `status_code = None`, not 503. -/
theorem C3_counterexample :
    execute 3 (fun _ => .response ⟨503, Body.empty⟩) =
      (.error requestFailedError, 4) ∧
    requestFailedError.status_code ≠ some 503 := ⟨rfl, by decide⟩

/-- C4 (amended): a 404 response on the first attempt is terminal — exactly
one attempt is made — and, when its body is JSON-decodable, the error is
`AlgoNotFoundError` with status 404 and the decoded body. (As stated the
claim also covers undecodable bodies, where the error is instead the
generic no-status `AlgoAPIError`; the single attempt still holds.) -/
theorem C4_not_found_single_attempt (max_retries : Nat)
    (server : Nat → AttemptOutcome) (b : Body)
    (h : server 1 = .response ⟨404, b⟩) :
    (execute max_retries server).2 = 1 ∧
    ∀ j, b = .json j →
      (execute max_retries server).1 =
        .error { kind := .notFoundError, message := "Resource not found",
                 status_code := some 404, response := some j } := by
  have hterm := runSession_terminal server max_retries 1 ⟨404, b⟩ h
    (not_in_forcelist 404 (by omega))
  constructor
  · unfold execute; rw [hterm]
  · intro j hj
    subst hj
    unfold execute
    rw [hterm]
    rfl

/-- Witness for C4: a decodable 404 body. -/
theorem C4_not_found_single_attempt_witness :
    (execute 3 (fun _ => .response ⟨404, .json .jnull⟩)).2 = 1 ∧
    (execute 3 (fun _ => .response ⟨404, .json .jnull⟩)).1 =
      .error { kind := .notFoundError, message := "Resource not found",
               status_code := some 404, response := some .jnull } :=
  ⟨(C4_not_found_single_attempt 3 _ (.json .jnull) rfl).1,
   (C4_not_found_single_attempt 3 _ (.json .jnull) rfl).2 .jnull rfl⟩

/-- Counterexample to C4 as stated: a 404 with an empty body still takes one
attempt, but `response.json()` raises and the error is the base
`AlgoAPIError` without the `NotFound` kind or the 404 status. -/
theorem C4_counterexample :
    execute 3 (fun _ => .response ⟨404, Body.empty⟩) =
      (.error requestFailedError, 1) ∧
    requestFailedError.kind ≠ ExcClass.notFoundError ∧
    requestFailedError.status_code ≠ some 404 := ⟨rfl, by decide, by decide⟩

/-- C5 (amended): status 429 on every attempt exhausts the `Retry` budget
inside the session — 429 is in the forcelist — so after `max_retries + 1`
attempts `execute` returns the base `AlgoAPIError` with no status code and
no body; the `AlgoRateLimitError` branch is never reached and the response
body is not surfaced. -/
theorem C5_always_429_exhausts (max_retries : Nat)
    (server : Nat → AttemptOutcome) (bodies : Nat → Body)
    (h : ∀ i, server i = .response ⟨429, bodies i⟩) :
    execute max_retries server = (.error requestFailedError, max_retries + 1) := by
  have hall := runSession_all_retry server
    (fun i => by simp [attemptRetried, h i, status_forcelist]) max_retries 1
  unfold execute
  rw [hall, Nat.add_comm 1 max_retries]

/-- Witness for C5 with the body of the spec's scenario. -/
theorem C5_always_429_exhausts_witness :
    execute 3 (fun _ =>
        .response ⟨429, .json (.jobj [("error", .jstr "rate limited")])⟩) =
      (.error requestFailedError, 4) :=
  C5_always_429_exhausts 3 _
    (fun _ => Body.json (.jobj [("error", .jstr "rate limited")]))
    (fun _ => rfl)

/-- Counterexample to C5 as stated: the scenario of the spec — every attempt
a 429 with body `{"error": "rate limited"}` — produces the base
`AlgoAPIError` with neither the `RateLimited` kind, nor status 429, nor the
response body. -/
theorem C5_counterexample :
    execute 3 (fun _ =>
        .response ⟨429, .json (.jobj [("error", .jstr "rate limited")])⟩) =
      (.error requestFailedError, 4) ∧
    requestFailedError.kind ≠ ExcClass.rateLimitError ∧
    requestFailedError.status_code ≠ some 429 ∧
    requestFailedError.response = none := ⟨rfl, by decide, by decide, rfl⟩

/-- C6 (confirmed): with `api_key = "secret"` every outgoing request, on
every attempt, carries `Authorization: Bearer secret`; with no key the
header is absent; `Content-Type: application/json` is always present; and
the headers are the same for every attempt and call, being computed from
the configuration captured at construction. -/
theorem C6_headers (cfg : ClientConfig) (a b : Nat) :
    (cfg.api_key = some "secret" →
      (requestHeaders cfg a).lookup "Authorization" = some "Bearer secret") ∧
    (cfg.api_key = none →
      (requestHeaders cfg a).lookup "Authorization" = none) ∧
    (requestHeaders cfg a).lookup "Content-Type" = some "application/json" ∧
    requestHeaders cfg a = requestHeaders cfg b := by
  refine ⟨?_, ?_, ?_, rfl⟩
  · intro h
    simp only [requestHeaders, h]
    rfl
  · intro h
    simp only [requestHeaders, h]
    rfl
  · rfl

/-- Witness for C6 at the default configuration with and without a key. -/
theorem C6_headers_witness :
    (requestHeaders ⟨some "secret", "http://localhost:4000/api/v1", 30, 3⟩
        1).lookup "Authorization" = some "Bearer secret" ∧
    (requestHeaders ⟨none, "http://localhost:4000/api/v1", 30, 3⟩
        1).lookup "Authorization" = none :=
  ⟨(C6_headers ⟨some "secret", "http://localhost:4000/api/v1", 30, 3⟩ 1 2).1 rfl,
   (C6_headers ⟨none, "http://localhost:4000/api/v1", 30, 3⟩ 1 2).2.1 rfl⟩

/-- C7 (confirmed): the backoff delay of the configured `Retry` strategy is
monotonically non-decreasing in the attempt number (for any backoff factor,
in particular the configured factor 1), and retrying is finite: every
`execute` call makes at most `max_retries + 1` attempts. -/
theorem C7_backoff_monotone_finite :
    (∀ f i, get_backoff_time f i ≤ get_backoff_time f (i + 1)) ∧
    (∀ max_retries server, (execute max_retries server).2 ≤ max_retries + 1) := by
  constructor
  · intro f i
    rcases i with _ | _ | i
    · simp [get_backoff_time]
    · simp [get_backoff_time]
    · simp only [get_backoff_time]
      rw [if_neg (by omega), if_neg (by omega)]
      exact min_le_min (le_refl BACKOFF_MAX)
        (Nat.mul_le_mul (le_refl f)
          (Nat.pow_le_pow_right (by omega) (by omega)))
  · intro mr server
    have h := runSession_attempts_le server mr 1
    unfold execute
    rcases hr : runSession server mr 1 with ⟨res, n⟩
    rw [hr] at h
    rcases res <;> simpa [Nat.add_comm] using h

/-- C9 (amended): an optional field is included exactly when a truthy value
was provided for it — a non-empty string, a non-zero integer — and an
absent optional field is omitted from the body or query rather than sent as
empty or null. (As stated the claim says "exactly when a value was
provided"; a provided falsy value, such as `name=""`, is also omitted, see
the counterexample.) -/
theorem C9_truthy_optional_fields (email username password : String)
    (name : Option String) (page limit : Int) (search : Option String)
    (url : String) (events : List String) (project_id : Option Int)
    (secret : Option String) :
    (∀ n : String,
      (UsersAPI.create_spec email username password name).body.lookup "name"
        = some (JVal.s n) ↔ name = some n ∧ n ≠ "") ∧
    (name = none →
      (UsersAPI.create_spec email username password name).body.lookup "name"
        = none) ∧
    (∀ s : String,
      (UsersAPI.list_spec page limit search).query.lookup "search"
        = some (JVal.s s) ↔ search = some s ∧ s ≠ "") ∧
    (search = none →
      (UsersAPI.list_spec page limit search).query.lookup "search" = none) ∧
    (∀ p : Int,
      (WebhooksAPI.create_spec url events project_id secret).body.lookup
          "project_id" = some (JVal.i p) ↔ project_id = some p ∧ p ≠ 0) ∧
    (project_id = none →
      (WebhooksAPI.create_spec url events project_id secret).body.lookup
          "project_id" = none) := by
  refine ⟨?_, ?_, ?_, ?_, ?_, ?_⟩
  · intro n
    rcases name with _ | v
    · simp [UsersAPI.create_spec, strOptFields, List.lookup]
    · by_cases hv : v = "" <;>
        simp [UsersAPI.create_spec, strOptFields, List.lookup, hv] <;>
        aesop
  · intro h
    subst h
    rfl
  · intro s
    rcases search with _ | v
    · simp [UsersAPI.list_spec, strOptFields, List.lookup]
    · by_cases hv : v = "" <;>
        simp [UsersAPI.list_spec, strOptFields, List.lookup, hv] <;>
        aesop
  · intro h
    subst h
    rfl
  · intro p
    rcases project_id with _ | v
    · rcases secret with _ | w
      · simp [WebhooksAPI.create_spec, intOptFields, strOptFields,
          List.lookup]
      · by_cases hw : w = "" <;>
          simp [WebhooksAPI.create_spec, intOptFields, strOptFields,
            List.lookup, hw]
    · by_cases hv : v = 0 <;>
        rcases secret with _ | w
      · simp [WebhooksAPI.create_spec, intOptFields, strOptFields,
          List.lookup, hv]
        omega
      · by_cases hw : w = "" <;>
          simp [WebhooksAPI.create_spec, intOptFields, strOptFields,
            List.lookup, hv, hw] <;>
          omega
      · simp [WebhooksAPI.create_spec, intOptFields, strOptFields,
          List.lookup, hv] <;> aesop
      · by_cases hw : w = "" <;>
          simp [WebhooksAPI.create_spec, intOptFields, strOptFields,
            List.lookup, hv, hw] <;> aesop
  · intro h
    subst h
    rcases secret with _ | w
    · rfl
    · by_cases hw : w = "" <;>
        simp [WebhooksAPI.create_spec, intOptFields, strOptFields,
          List.lookup, hw]

/-- Witness for C9 at concrete arguments: a truthy `name` is included, an
omitted `name` is absent. -/
theorem C9_truthy_optional_fields_witness :
    ((UsersAPI.create_spec "e" "u" "p" (some "Ada")).body.lookup "name"
        = some (JVal.s "Ada") ↔ some "Ada" = some "Ada" ∧ "Ada" ≠ "") ∧
    (UsersAPI.create_spec "e" "u" "p" none).body.lookup "name" = none :=
  ⟨(C9_truthy_optional_fields "e" "u" "p" (some "Ada") 1 20 none "w" [] none
      none).1 "Ada",
   (C9_truthy_optional_fields "e" "u" "p" none 1 20 none "w" [] none
      none).2.1 rfl⟩

/-- Counterexample to C9 as stated: `users.create` with `name=""` — a value
was provided — omits the `name` field because the code tests Python
truthiness, not presence. -/
theorem C9_counterexample :
    (UsersAPI.create_spec "e" "u" "p" (some "")).body.lookup "name" = none ∧
    (some "" : Option String) ≠ none := ⟨rfl, by simp⟩

/-- C10 (confirmed): a provided falsy optional argument produces the same
outgoing request as an omitted one: `users.create` with `name=""`,
`webhooks.create` and `webhooks.list` with `project_id=0`, and the list
operations with `search=""`, for every value of the other arguments. -/
theorem C10_falsy_equals_omitted (email username password url : String)
    (events : List String) (secret : Option String) (page limit : Int) :
    UsersAPI.create_spec email username password (some "")
      = UsersAPI.create_spec email username password none ∧
    WebhooksAPI.create_spec url events (some 0) secret
      = WebhooksAPI.create_spec url events none secret ∧
    WebhooksAPI.list_spec page limit (some 0)
      = WebhooksAPI.list_spec page limit none ∧
    UsersAPI.list_spec page limit (some "")
      = UsersAPI.list_spec page limit none ∧
    ProjectsAPI.list_spec page limit (some "")
      = ProjectsAPI.list_spec page limit none :=
  ⟨rfl, rfl, rfl, rfl, rfl⟩

/-- C8 (confirmed): a first-attempt response with status in [200, 400) and
an empty body is terminal, and `execute` returns the empty value `None`
(`response.json() if response.content else None`), never an error. -/
theorem C8_empty_body_success (max_retries status : Nat)
    (server : Nat → AttemptOutcome)
    (h : server 1 = .response ⟨status, Body.empty⟩)
    (h2 : 200 ≤ status) (h3 : status < 400) :
    execute max_retries server = (.success none, 1) := by
  have hterm := runSession_terminal server max_retries 1
    ⟨status, Body.empty⟩ h (not_in_forcelist status (by omega))
  unfold execute
  rw [hterm]
  have h401 : status ≠ 401 := by omega
  have h404 : status ≠ 404 := by omega
  have h400 : status ≠ 400 := by omega
  have h429 : status ≠ 429 := by omega
  have hge : ¬ 400 ≤ status := by omega
  simp [classifyResponse, h401, h404, h400, h429, hge]

/-- Witness for C8: a 204 with an empty body returns `None` in one attempt. -/
theorem C8_empty_body_success_witness :
    execute 3 (fun _ => .response ⟨204, Body.empty⟩) = (.success none, 1) :=
  C8_empty_body_success 3 204 _ rfl (by omega) (by omega)
